import Mathlib

/-!
Verification of the HTTP call layer of the n8n API client: request
construction, error classification (functions `parseError` and
`parseHttpError`), and the bounded-retry engine (`withRetry`), shallowly
embedded from `src/services/n8n-api-client.ts` and `src/utils/errors.ts`.
-/

/-- Substring helper for JS `String.prototype.includes`: does the haystack
start with the pattern? Structural recursion on char lists so that concrete
instances evaluate by `decide`. -/
def beginsWith : List Char → List Char → Bool
  | _, [] => true
  | [], _ :: _ => false
  | a :: as, b :: bs => decide (a = b) && beginsWith as bs

/-- JS `haystack.includes(pattern)` on char lists. -/
def hasSubList : List Char → List Char → Bool
  | [], pat => pat.isEmpty
  | a :: as, pat => beginsWith (a :: as) pat || hasSubList as pat

/-- JS `s.includes(pat)`. -/
def containsSub (s pat : String) : Bool :=
  hasSubList s.data pat.data

/-- JS `v || d` for an optional string field: `undefined` and the empty
string are falsy and fall back to the default. -/
def jsOrS (v : Option String) (d : String) : String :=
  match v with
  | some s => if s = "" then d else s
  | none => d

/-- JS `v || d` for an optional number option: `undefined` and `0` are
falsy and fall back to the default (`options.timeout || 30000`). -/
def jsOrNat (v : Option Nat) (d : Nat) : Nat :=
  match v with
  | some n => if n = 0 then d else n
  | none => d

/-- The JSON object fields of an error-response body that the classifier
reads (`message?: string, hint?: string`); other fields are opaque. -/
structure ParsedBody where
  message : Option String
  hint : Option String
deriving Repr, DecidableEq

/-- The error-response body handed to `parseHttpError`, abstracted by the
outcome of `JSON.parse`: falsy (absent or empty), truthy but unparseable,
or a parsed JSON object with its optional `message` and `hint` fields. -/
inductive ErrBody
  | empty
  | notJson (raw : String)
  | jsonObj (message : Option String) (hint : Option String)
deriving Repr, DecidableEq

/-- Value of `parsedBody` after the guarded `JSON.parse(body)` in
`parseHttpError`: it stays the empty object when the body is falsy or
fails to parse. -/
def parseBody : ErrBody → ParsedBody
  | .empty => ⟨none, none⟩
  | .notJson _ => ⟨none, none⟩
  | .jsonObj m h => ⟨m, h⟩

/-- The `N8nError` payload (interface `N8nApiError` in the source): code,
message, optional status code, optional details (the parsed body),
optional hint. -/
structure N8nApiError where
  code : String
  message : String
  statusCode : Option Nat := none
  details : Option ParsedBody := none
  hint : Option String := none
deriving Repr, DecidableEq

-- Constants of the `ErrorCodes` object in `src/utils/errors.ts`.
namespace ErrorCodes

def CONNECTION_FAILED : String := "CONNECTION_FAILED"

def TIMEOUT : String := "TIMEOUT"

def NETWORK_ERROR : String := "NETWORK_ERROR"

def UNAUTHORIZED : String := "UNAUTHORIZED"

def FORBIDDEN : String := "FORBIDDEN"

def INVALID_API_KEY : String := "INVALID_API_KEY"

def NOT_FOUND : String := "NOT_FOUND"

def WORKFLOW_NOT_FOUND : String := "WORKFLOW_NOT_FOUND"

def EXECUTION_NOT_FOUND : String := "EXECUTION_NOT_FOUND"

def VALIDATION_ERROR : String := "VALIDATION_ERROR"

def INVALID_WORKFLOW : String := "INVALID_WORKFLOW"

def MISSING_REQUIRED_FIELD : String := "MISSING_REQUIRED_FIELD"

def ACTIVATION_FAILED : String := "ACTIVATION_FAILED"

def WEBHOOK_ERROR : String := "WEBHOOK_ERROR"

def UNKNOWN_ERROR : String := "UNKNOWN_ERROR"

def API_ERROR : String := "API_ERROR"

/-- Every code constant declared in `ErrorCodes`: the closed taxonomy. -/
def all : List String :=
  [CONNECTION_FAILED, TIMEOUT, NETWORK_ERROR, UNAUTHORIZED, FORBIDDEN,
   INVALID_API_KEY, NOT_FOUND, WORKFLOW_NOT_FOUND, EXECUTION_NOT_FOUND,
   VALIDATION_ERROR, INVALID_WORKFLOW, MISSING_REQUIRED_FIELD,
   ACTIVATION_FAILED, WEBHOOK_ERROR, UNKNOWN_ERROR, API_ERROR]

end ErrorCodes

/-- A JavaScript thrown value as the call layer distinguishes it: an
`N8nError` instance, some other `Error` instance (with its `name` and
`message` fields), or a non-`Error` value whose `String(x)` rendering
is `s`. -/
inductive Thrown
  | n8nError (e : N8nApiError)
  | jsError (name message : String)
  | other (s : String)
deriving Repr, DecidableEq

/-- Embedding of `parseError` from `src/utils/errors.ts`: pass `N8nError`
through unchanged; classify other `Error` instances by substring tests on
the message; stringify non-`Error` values. -/
def parseError (t : Thrown) : N8nApiError :=
  match t with
  | .n8nError e => e
  | .jsError _ msg =>
    if containsSub msg "fetch failed" || containsSub msg "ECONNREFUSED" then
      { code := ErrorCodes.CONNECTION_FAILED
        message := "Failed to connect to n8n instance"
        hint := some "Check that N8N_API_URL is correct and n8n is running" }
    else if containsSub msg "timeout" || containsSub msg "ETIMEDOUT" then
      { code := ErrorCodes.TIMEOUT
        message := "Request timed out"
        hint := some "The n8n server took too long to respond" }
    else
      { code := ErrorCodes.UNKNOWN_ERROR, message := msg }
  | .other s => { code := ErrorCodes.UNKNOWN_ERROR, message := s }

/-- Embedding of `parseHttpError` from `src/utils/errors.ts`: the
status-code switch producing a structured error, with the body parsed
best-effort beforehand. -/
def parseHttpError (status : Nat) (body : ErrBody) : N8nApiError :=
  let parsedBody := parseBody body
  let message := jsOrS parsedBody.message ("HTTP Error " ++ toString status)
  let hint := parsedBody.hint
  if status = 401 then
    { code := ErrorCodes.UNAUTHORIZED
      message := "Unauthorized - Invalid API key"
      statusCode := some 401
      hint := some (jsOrS hint "Check that N8N_API_KEY is correct") }
  else if status = 403 then
    { code := ErrorCodes.FORBIDDEN
      message := "Forbidden - Access denied"
      statusCode := some 403
      hint := some (jsOrS hint "Your API key may not have permission for this operation") }
  else if status = 404 then
    { code := ErrorCodes.NOT_FOUND
      message := message
      statusCode := some 404
      hint := some (jsOrS hint "The requested resource was not found") }
  else if status = 422 then
    { code := ErrorCodes.VALIDATION_ERROR
      message := message
      statusCode := some 422
      hint := some (jsOrS hint "The request data is invalid")
      details := some parsedBody }
  else if status = 500 || status = 502 || status = 503 then
    { code := ErrorCodes.API_ERROR
      message := "n8n server error"
      statusCode := some status
      hint := some "The n8n server encountered an error" }
  else
    { code := ErrorCodes.API_ERROR
      message := message
      statusCode := some status
      hint := hint }

/-- Embedding of interface `RetryConfig` from `src/utils/errors.ts`. -/
structure RetryConfig where
  maxRetries : Nat
  baseDelayMs : Nat
  maxDelayMs : Nat
deriving Repr, DecidableEq

/-- Embedding of `DEFAULT_RETRY_CONFIG`. -/
def DEFAULT_RETRY_CONFIG : RetryConfig :=
  { maxRetries := 3, baseDelayMs := 1000, maxDelayMs := 10000 }

/-- Embedding of the TS type `Partial RetryConfig`: each field optionally
supplied by the caller. -/
structure PartialRetryConfig where
  maxRetries : Option Nat := none
  baseDelayMs : Option Nat := none
  maxDelayMs : Option Nat := none
deriving Repr, DecidableEq

/-- The object spread merging defaults with the caller config inside
`withRetry`: a supplied field wins, an absent one keeps the default. -/
def mergeRetryConfig (config : PartialRetryConfig) : RetryConfig :=
  { maxRetries := config.maxRetries.getD DEFAULT_RETRY_CONFIG.maxRetries
    baseDelayMs := config.baseDelayMs.getD DEFAULT_RETRY_CONFIG.baseDelayMs
    maxDelayMs := config.maxDelayMs.getD DEFAULT_RETRY_CONFIG.maxDelayMs }

/-- Wrapping performed by the `lastError` assignment in `withRetry`:
a thrown value that is an `Error` instance is kept, a non-`Error` value
is wrapped into a plain `Error` carrying its string rendering. -/
def toError : Thrown → Thrown
  | .other s => .jsError "Error" s
  | t => t

/-- The `nonRetryableCodes` list inside `withRetry`. -/
def nonRetryableCodes : List String :=
  [ErrorCodes.UNAUTHORIZED, ErrorCodes.FORBIDDEN,
   ErrorCodes.NOT_FOUND, ErrorCodes.VALIDATION_ERROR]

/-- The fast-fail test inside the catch of `withRetry`:
`error instanceof N8nError && nonRetryableCodes.includes(error.code)`. -/
def thrownNonRetryable : Thrown → Bool
  | .n8nError e => nonRetryableCodes.contains e.code
  | _ => false

instance {E T : Type} [DecidableEq E] [DecidableEq T] : DecidableEq (Except E T) :=
  fun a b =>
    match a, b with
    | .ok x, .ok y => decidable_of_iff (x = y) (by simp)
    | .error x, .error y => decidable_of_iff (x = y) (by simp)
    | .ok _, .error _ => .isFalse (by simp)
    | .error _, .ok _ => .isFalse (by simp)

/-- What one run of `withRetry` produces: the value returned or the error
thrown, the number of attempts executed, and the backoff delays slept
between attempts, in order. -/
structure RunResult (T : Type) where
  result : Except Thrown T
  attempts : Nat
  delays : List Nat
deriving Repr, DecidableEq

/-- The attempt loop of `withRetry`
(`for (let attempt = 0; attempt <= maxRetries; attempt++)`), with the
operation given as the outcome of each attempt. `remaining` stands for
`maxRetries - attempt`, so `remaining = 0` is exactly the final loop
iteration, where `attempt === maxRetries` holds and the last error is
rethrown. -/
def retryGo {T : Type} (fn : Nat → Except Thrown T) (baseDelayMs maxDelayMs : Nat) :
    (attempt remaining : Nat) → RunResult T
  | attempt, remaining =>
    match fn attempt with
    | .ok v => ⟨.ok v, 1, []⟩
    | .error e =>
      if thrownNonRetryable e then
        ⟨.error e, 1, []⟩
      else
        match remaining with
        | 0 => ⟨.error (toError e), 1, []⟩
        | r + 1 =>
          let rest := retryGo fn baseDelayMs maxDelayMs (attempt + 1) r
          ⟨rest.result, rest.attempts + 1,
           min (baseDelayMs * 2 ^ attempt) maxDelayMs :: rest.delays⟩

/-- Embedding of `withRetry` from `src/utils/errors.ts`, over the
per-attempt outcomes. -/
def withRetry {T : Type} (fn : Nat → Except Thrown T)
    (config : PartialRetryConfig) : RunResult T :=
  let merged := mergeRetryConfig config
  retryGo fn merged.baseDelayMs merged.maxDelayMs 0 merged.maxRetries

/-- The success body of an `ok` response, abstracted by the outcome of
`JSON.parse(text)`: empty text, a parsed value, or a parse failure
(a `SyntaxError` whose message is `errMsg`). -/
inductive SuccessBody (T : Type)
  | empty
  | jsonOf (v : T)
  | notJson (errMsg : String)
deriving Repr, DecidableEq

/-- What one `fetch` inside `request` resolves to: an `ok` response with a
success body, a non-`ok` response with a status and an error body, or a
rejection with a thrown value (the per-attempt timeout firing rejects with
an `Error` named `AbortError`). -/
inductive FetchOutcome (T : Type)
  | respOk (body : SuccessBody T)
  | respErr (status : Nat) (body : ErrBody)
  | thrown (t : Thrown)
deriving Repr, DecidableEq

/-- The value `request` resolves with: the empty object for an empty body,
or the parsed JSON value. -/
inductive ReqValue (T : Type)
  | emptyObj
  | parsed (v : T)
deriving Repr, DecidableEq

/-- The catch block of the per-attempt function in `request`: an
`N8nError` is rethrown unchanged; an `Error` named `AbortError` becomes a
plain `Error` with message `Request timed out`; any other `Error` is
rethrown; a non-`Error` value becomes a plain `Error` with message
`Unknown API error`. -/
def requestCatch (t : Thrown) : Thrown :=
  match t with
  | .n8nError e => .n8nError e
  | .jsError name msg =>
    if name = "AbortError" then .jsError "Error" "Request timed out"
    else .jsError name msg
  | .other _ => .jsError "Error" "Unknown API error"

/-- One attempt of `request`: a non-`ok` response throws
`parseHttpError(status, body)`; an `ok` response returns the empty object
for an empty body and the parsed value otherwise, and throws a
`SyntaxError` if parsing a non-empty body fails; every throw passes
through the catch block. -/
def requestAttempt {T : Type} (r : FetchOutcome T) : Except Thrown (ReqValue T) :=
  match r with
  | .respOk .empty => .ok .emptyObj
  | .respOk (.jsonOf v) => .ok (.parsed v)
  | .respOk (.notJson m) => .error (requestCatch (.jsError "SyntaxError" m))
  | .respErr status body => .error (requestCatch (.n8nError (parseHttpError status body)))
  | .thrown t => .error (requestCatch t)

/-- Embedding of `request` from `src/services/n8n-api-client.ts`: the
per-attempt function run under `withRetry` with only `maxRetries`
supplied, where `script k` is what the fetch of attempt `k` does. -/
def request {T : Type} (script : Nat → FetchOutcome T) (maxRetries : Nat) :
    RunResult (ReqValue T) :=
  withRetry (fun k => requestAttempt (script k)) { maxRetries := some maxRetries }

/-- The header object built by `request`: the auth header and the JSON
content type, then the caller headers spread last, modelled as a
string-keyed lookup; an entry of the last spread wins. -/
def buildHeaders (apiKey : String) (callerHeaders : String → Option String) :
    String → Option String :=
  fun k =>
    match callerHeaders k with
    | some v => some v
    | none =>
      if k = "X-N8N-API-KEY" then some apiKey
      else if k = "Content-Type" then some "application/json"
      else none

/-- Embedding of `N8nConfig`, restricted to the fields the client reads. -/
structure N8nConfig where
  apiUrl : String
  apiKey : String
deriving Repr, DecidableEq

/-- Embedding of `N8nApiClientOptions`. -/
structure N8nApiClientOptions where
  timeout : Option Nat := none
  maxRetries : Option Nat := none
deriving Repr, DecidableEq

/-- The private state of an `N8nApiClient` instance. -/
structure N8nApiClient where
  baseUrl : String
  apiKey : String
  timeout : Nat
  maxRetries : Nat
deriving Repr, DecidableEq

/-- JS `config.apiUrl.replace` with a regex anchored at the end: drop one
trailing slash when present. -/
def stripTrailingSlash (url : String) : String :=
  if url.endsWith "/" then url.dropRight 1 else url

/-- The `N8nApiClient` constructor: defaults applied with the `||`
operator, so falsy (zero) option values fall back to the defaults. -/
def N8nApiClient.make (config : N8nConfig) (options : N8nApiClientOptions) :
    N8nApiClient :=
  { baseUrl := stripTrailingSlash config.apiUrl
    apiKey := config.apiKey
    timeout := jsOrNat options.timeout 30000
    maxRetries := jsOrNat options.maxRetries 3 }

/-- Discriminator: did the run end by throwing a non-`Error` value? -/
def resultNonErrorThrow {T : Type} : Except Thrown T → Bool
  | .error (.other _) => true
  | _ => false

/-- Discriminator: is the thrown value an `N8nError` instance? -/
def isN8nThrown : Thrown → Bool
  | .n8nError _ => true
  | _ => false

/-- One-step unfolding of the retry loop body. -/
lemma retryGo_eq {T : Type} (fn : Nat → Except Thrown T)
    (baseDelayMs maxDelayMs attempt remaining : Nat) :
    retryGo fn baseDelayMs maxDelayMs attempt remaining =
      match fn attempt with
      | .ok v => ⟨.ok v, 1, []⟩
      | .error e =>
        if thrownNonRetryable e then
          ⟨.error e, 1, []⟩
        else
          match remaining with
          | 0 => ⟨.error (toError e), 1, []⟩
          | r + 1 =>
            let rest := retryGo fn baseDelayMs maxDelayMs (attempt + 1) r
            ⟨rest.result, rest.attempts + 1,
             min (baseDelayMs * 2 ^ attempt) maxDelayMs :: rest.delays⟩ := by
  conv_lhs => rw [retryGo]

/-- When every attempt fails with a retryable error (`errOf k` being the
error of attempt `k`), the loop runs all iterations, ends with the last
error wrapped, and sleeps the exponential-backoff delays in order. -/
lemma retryGo_failAll {T : Type} (fn : Nat → Except Thrown T)
    (errOf : Nat → Thrown) (base maxD : Nat)
    (hfn : ∀ k, fn k = .error (errOf k))
    (hnr : ∀ k, thrownNonRetryable (errOf k) = false) :
    ∀ remaining attempt,
      retryGo fn base maxD attempt remaining =
        ⟨.error (toError (errOf (attempt + remaining))), remaining + 1,
         (List.range remaining).map (fun i => min (base * 2 ^ (attempt + i)) maxD)⟩ := by
  intro remaining
  induction remaining with
  | zero =>
    intro attempt
    rw [retryGo_eq, hfn attempt]
    simp [hnr attempt]
  | succ r ih =>
    intro attempt
    rw [retryGo_eq, hfn attempt]
    simp [hnr attempt, ih (attempt + 1)]
    constructor
    · have hx : attempt + 1 + r = attempt + (r + 1) := by omega
      rw [hx]
    · rw [List.range_succ_eq_map]
      simp [List.map_map, Function.comp]
      intro a _
      have hx : attempt + 1 + a = attempt + (a + 1) := by omega
      rw [hx]

/-- Projection form of `retryGo_failAll` for attempts whose errors are
only known to exist and be retryable. -/
lemma retryGo_allFail {T : Type} (fn : Nat → Except Thrown T) (base maxD : Nat)
    (h : ∀ k, ∃ e, fn k = Except.error e ∧ thrownNonRetryable e = false)
    (remaining attempt : Nat) :
    (retryGo fn base maxD attempt remaining).attempts = remaining + 1 ∧
    (retryGo fn base maxD attempt remaining).delays =
      (List.range remaining).map (fun i => min (base * 2 ^ (attempt + i)) maxD) := by
  have hfn : ∀ k, fn k = Except.error
      (match fn k with | .error e => e | .ok _ => Thrown.other "") := by
    intro k
    obtain ⟨e, he, _⟩ := h k
    rw [he]
  have hnr : ∀ k, thrownNonRetryable
      (match fn k with | .error e => e | .ok _ => Thrown.other "") = false := by
    intro k
    obtain ⟨e, he, hn⟩ := h k
    rw [he]
    exact hn
  rw [retryGo_failAll fn _ base maxD hfn hnr remaining attempt]
  exact ⟨rfl, rfl⟩

/-- A non-retryable classified error terminates the loop at once, with the
original error rethrown unchanged. -/
lemma retryGo_fastFail {T : Type} (fn : Nat → Except Thrown T)
    (base maxD attempt remaining : Nat) (e : Thrown)
    (he : fn attempt = .error e) (hnr : thrownNonRetryable e = true) :
    retryGo fn base maxD attempt remaining = ⟨.error e, 1, []⟩ := by
  rw [retryGo_eq, he]
  simp [hnr]

/-- The loop never runs more iterations than the for-bound allows. -/
lemma retryGo_attempts_le {T : Type} (fn : Nat → Except Thrown T) (base maxD : Nat) :
    ∀ remaining attempt,
      (retryGo fn base maxD attempt remaining).attempts ≤ remaining + 1 := by
  intro remaining
  induction remaining with
  | zero =>
    intro attempt
    rw [retryGo_eq]
    cases fn attempt with
    | ok v => simp
    | error e => by_cases hnr : thrownNonRetryable e = true <;> simp [hnr]
  | succ r ih =>
    intro attempt
    rw [retryGo_eq]
    cases fn attempt with
    | ok v => simp
    | error e =>
      by_cases hnr : thrownNonRetryable e = true
      · simp [hnr]
      · simp [hnr]
        have := ih (attempt + 1)
        omega

lemma nonErrorThrow_toError {T : Type} (e : Thrown) :
    resultNonErrorThrow (T := T) (.error (toError e)) = false := by
  cases e <;> rfl

lemma nonErrorThrow_nonRetryable {T : Type} (e : Thrown)
    (h : thrownNonRetryable e = true) :
    resultNonErrorThrow (T := T) (.error e) = false := by
  cases e <;> simp_all [thrownNonRetryable, resultNonErrorThrow]

/-- Whatever the attempts do, the terminal thrown value of the loop is
never a non-`Error` value, because `lastError` wraps those into a plain
`Error`. -/
lemma retryGo_result_wrapped {T : Type} (fn : Nat → Except Thrown T) (base maxD : Nat) :
    ∀ remaining attempt,
      resultNonErrorThrow (retryGo fn base maxD attempt remaining).result = false := by
  intro remaining
  induction remaining with
  | zero =>
    intro attempt
    rw [retryGo_eq]
    cases fn attempt with
    | ok v => simp [resultNonErrorThrow]
    | error e =>
      by_cases hnr : thrownNonRetryable e = true
      · simp [hnr, nonErrorThrow_nonRetryable e hnr]
      · simp [hnr, nonErrorThrow_toError]
  | succ r ih =>
    intro attempt
    rw [retryGo_eq]
    cases fn attempt with
    | ok v => simp [resultNonErrorThrow]
    | error e =>
      by_cases hnr : thrownNonRetryable e = true
      · simp [hnr, nonErrorThrow_nonRetryable e hnr]
      · simp [hnr, ih (attempt + 1)]

/-- Counterexample to claim C1: a transport fault (a fetch rejection with
message `fetch failed`) escapes `withRetry` as the raw `Error` it was, not
as an `N8nError` — `withRetry` performs no classification of its own and
rethrows `lastError` unchanged. -/
theorem withRetry_raw_error_escape_cex :
    (request (fun _ => (FetchOutcome.thrown (Thrown.jsError "TypeError" "fetch failed") : FetchOutcome Unit)) 3).result
      = Except.error (Thrown.jsError "TypeError" "fetch failed")
    ∧ isN8nThrown (Thrown.jsError "TypeError" "fetch failed") = false := by decide

/-- Claim C1 (amended): the terminal thrown value of `withRetry` need not
be an `N8nError`; the engine guarantees only that it is an `Error`
instance — a non-`Error` thrown value never escapes, because `lastError`
wraps it into a plain `Error` via its string rendering. -/
theorem withRetry_terminal_wrapped {T : Type} (fn : Nat → Except Thrown T)
    (config : PartialRetryConfig) :
    resultNonErrorThrow (withRetry fn config).result = false := by
  show resultNonErrorThrow (retryGo fn (mergeRetryConfig config).baseDelayMs
    (mergeRetryConfig config).maxDelayMs 0 (mergeRetryConfig config).maxRetries).result = false
  exact retryGo_result_wrapped _ _ _ _ 0

/-- Counterexample to claim C2: an attempt aborted by the per-attempt
timeout throws a plain `Error` with message `Request timed out`; the
terminal error after exhausting retries is that raw `Error` (no kind at
all), and even classifying it with `parseError` yields kind
`UNKNOWN_ERROR`, not `TIMEOUT`, because the message contains neither the
substring `timeout` nor `ETIMEDOUT`. -/
theorem request_timeout_unclassified_cex :
    (request (fun _ => (FetchOutcome.thrown (Thrown.jsError "AbortError" "This operation was aborted") : FetchOutcome Unit)) 3).result
      = Except.error (Thrown.jsError "Error" "Request timed out")
    ∧ (parseError (Thrown.jsError "Error" "Request timed out")).code = ErrorCodes.UNKNOWN_ERROR
    ∧ ErrorCodes.UNKNOWN_ERROR ≠ ErrorCodes.TIMEOUT
    ∧ isN8nThrown (Thrown.jsError "Error" "Request timed out") = false := by decide

/-- Claim C2 (amended): a request whose every attempt is aborted by the
per-attempt timeout throws, per attempt, a plain `Error` with message
`Request timed out`; that error is retryable (not in the fast-fail set),
so all `maxRetries + 1` attempts run, and the terminal error is that same
plain `Error` — whose classification under `parseError` is
`UNKNOWN_ERROR`, not `TIMEOUT`. -/
theorem request_timeout_all_attempts {T : Type} (script : Nat → FetchOutcome T)
    (habort : ∀ k, ∃ m, script k = FetchOutcome.thrown (Thrown.jsError "AbortError" m))
    (maxRetries : Nat) :
    (request script maxRetries).result = Except.error (Thrown.jsError "Error" "Request timed out")
    ∧ (request script maxRetries).attempts = maxRetries + 1
    ∧ (parseError (Thrown.jsError "Error" "Request timed out")).code = ErrorCodes.UNKNOWN_ERROR := by
  have hfn : ∀ k, requestAttempt (script k)
      = Except.error (Thrown.jsError "Error" "Request timed out") := by
    intro k
    obtain ⟨m, hm⟩ := habort k
    simp [hm, requestAttempt, requestCatch]
  have h := retryGo_failAll (fun k => requestAttempt (script k))
      (fun _ => Thrown.jsError "Error" "Request timed out") 1000 10000
      hfn (fun _ => rfl) maxRetries 0
  refine ⟨?_, ?_, by decide⟩
  · show (retryGo (fun k => requestAttempt (script k)) 1000 10000 0 maxRetries).result = _
    rw [h]
    rfl
  · show (retryGo (fun k => requestAttempt (script k)) 1000 10000 0 maxRetries).attempts = _
    rw [h]

/-- Witness for claim C2 at a concrete always-aborting script with
`maxRetries = 2`. -/
theorem request_timeout_all_attempts_witness :
    (request (fun _ => (FetchOutcome.thrown (Thrown.jsError "AbortError" "This operation was aborted") : FetchOutcome Unit)) 2).result
      = Except.error (Thrown.jsError "Error" "Request timed out")
    ∧ (request (fun _ => (FetchOutcome.thrown (Thrown.jsError "AbortError" "This operation was aborted") : FetchOutcome Unit)) 2).attempts = 2 + 1
    ∧ (parseError (Thrown.jsError "Error" "Request timed out")).code = ErrorCodes.UNKNOWN_ERROR :=
  request_timeout_all_attempts _ (fun _ => ⟨"This operation was aborted", rfl⟩) 2

/-- Claim C3: an operation whose first attempt fails with a structured
error whose kind is in the non-retryable set (Unauthorized, Forbidden,
NotFound, ValidationError) makes `withRetry` terminate immediately with
that error after exactly one attempt and no backoff sleeps, for every
configured retry policy; moreover the classifier maps every status in
401, 403, 404, 422 into that non-retryable set. -/
theorem withRetry_fastFail_one_attempt {T : Type} (e : N8nApiError)
    (hcode : e.code ∈ nonRetryableCodes)
    (fn : Nat → Except Thrown T) (config : PartialRetryConfig)
    (hfn : fn 0 = Except.error (Thrown.n8nError e))
    (s : Nat) (hs : s ∈ [401, 403, 404, 422]) (body : ErrBody) :
    withRetry fn config = ⟨Except.error (Thrown.n8nError e), 1, []⟩
    ∧ (parseHttpError s body).code ∈ nonRetryableCodes := by
  have hnr : thrownNonRetryable (Thrown.n8nError e) = true := by
    simp only [thrownNonRetryable]
    simpa using hcode
  constructor
  · show retryGo fn (mergeRetryConfig config).baseDelayMs
      (mergeRetryConfig config).maxDelayMs 0 (mergeRetryConfig config).maxRetries = _
    exact retryGo_fastFail _ _ _ _ _ _ hfn hnr
  · fin_cases hs
    · show ErrorCodes.UNAUTHORIZED ∈ nonRetryableCodes
      decide
    · show ErrorCodes.FORBIDDEN ∈ nonRetryableCodes
      decide
    · show ErrorCodes.NOT_FOUND ∈ nonRetryableCodes
      decide
    · show ErrorCodes.VALIDATION_ERROR ∈ nonRetryableCodes
      decide

/-- Witness for claim C3: a 404 error with body message
`Workflow not found` fast-fails after one attempt even with
`maxRetries = 5`. -/
theorem withRetry_fastFail_one_attempt_witness :
    withRetry (fun _ => (Except.error (Thrown.n8nError (parseHttpError 404 (ErrBody.jsonObj (some "Workflow not found") none))) : Except Thrown Unit)) { maxRetries := some 5 } =
      ⟨Except.error (Thrown.n8nError (parseHttpError 404 (ErrBody.jsonObj (some "Workflow not found") none))), 1, []⟩
    ∧ (parseHttpError 404 ErrBody.empty).code ∈ nonRetryableCodes :=
  withRetry_fastFail_one_attempt
    (parseHttpError 404 (ErrBody.jsonObj (some "Workflow not found") none))
    (by decide) _ { maxRetries := some 5 } rfl 404 (by decide) ErrBody.empty

/-- Claim C4: for an always-failing retryable operation, `withRetry`
performs exactly `maxRetries + 1` attempts with inter-attempt delays
`min (baseDelay * 2 ^ i) maxDelay`; in general no run exceeds
`maxRetries + 1` attempts; under the default policy this is 4 attempts
with delays 1000, 2000 and 4000 milliseconds. -/
theorem withRetry_backoff_schedule {T : Type} (fn : Nat → Except Thrown T)
    (hfail : ∀ k, ∃ e, fn k = Except.error e ∧ thrownNonRetryable e = false)
    (config : PartialRetryConfig) :
    (withRetry fn config).attempts = (mergeRetryConfig config).maxRetries + 1
    ∧ (withRetry fn config).delays =
        (List.range (mergeRetryConfig config).maxRetries).map
          (fun i => min ((mergeRetryConfig config).baseDelayMs * 2 ^ i)
                        (mergeRetryConfig config).maxDelayMs)
    ∧ (∀ g : Nat → Except Thrown T,
        (withRetry g config).attempts ≤ (mergeRetryConfig config).maxRetries + 1)
    ∧ (withRetry fn {}).attempts = 4
    ∧ (withRetry fn {}).delays = [1000, 2000, 4000] := by
  obtain ⟨h1, h2⟩ := retryGo_allFail fn (mergeRetryConfig config).baseDelayMs
    (mergeRetryConfig config).maxDelayMs hfail (mergeRetryConfig config).maxRetries 0
  obtain ⟨h3, h4⟩ := retryGo_allFail fn 1000 10000 hfail 3 0
  refine ⟨h1, ?_, ?_, h3.trans (by decide), ?_⟩
  · have := h2
    simp only [Nat.zero_add] at this
    exact this
  · intro g
    exact retryGo_attempts_le g _ _ _ 0
  · exact h4.trans (by decide)

/-- Witness for claim C4 at a concrete always-failing operation under the
policy with `maxRetries = 5`, `baseDelay = 100`, `maxDelay = 300`. -/
theorem withRetry_backoff_schedule_witness :
    (withRetry (fun _ => (Except.error (Thrown.jsError "Error" "boom") : Except Thrown Unit)) ⟨some 5, some 100, some 300⟩).attempts = (mergeRetryConfig ⟨some 5, some 100, some 300⟩).maxRetries + 1
    ∧ (withRetry (fun _ => (Except.error (Thrown.jsError "Error" "boom") : Except Thrown Unit)) ⟨some 5, some 100, some 300⟩).delays =
        (List.range (mergeRetryConfig ⟨some 5, some 100, some 300⟩).maxRetries).map
          (fun i => min ((mergeRetryConfig ⟨some 5, some 100, some 300⟩).baseDelayMs * 2 ^ i)
                        (mergeRetryConfig ⟨some 5, some 100, some 300⟩).maxDelayMs)
    ∧ (∀ g : Nat → Except Thrown Unit,
        (withRetry g ⟨some 5, some 100, some 300⟩).attempts ≤ (mergeRetryConfig ⟨some 5, some 100, some 300⟩).maxRetries + 1)
    ∧ (withRetry (fun _ => (Except.error (Thrown.jsError "Error" "boom") : Except Thrown Unit)) {}).attempts = 4
    ∧ (withRetry (fun _ => (Except.error (Thrown.jsError "Error" "boom") : Except Thrown Unit)) {}).delays = [1000, 2000, 4000] :=
  withRetry_backoff_schedule (fun _ => Except.error (Thrown.jsError "Error" "boom"))
    (fun _ => ⟨Thrown.jsError "Error" "boom", rfl, rfl⟩) ⟨some 5, some 100, some 300⟩

/-- Counterexample to claim C5: the caller spread comes last in the header
object literal, so a caller-supplied `X-N8N-API-KEY` entry overrides the
configured API key. -/
theorem buildHeaders_auth_override_cex :
    buildHeaders "secret-key" (fun k => if k = "X-N8N-API-KEY" then some "attacker-key" else none) "X-N8N-API-KEY" = some "attacker-key"
    ∧ some "attacker-key" ≠ some "secret-key" := by decide

/-- Claim C5 (amended): the built header map carries the configured API
key in `X-N8N-API-KEY` only when the caller supplies no entry of that
name; caller-supplied headers override both the content type and the
authentication header, since their spread comes last. -/
theorem buildHeaders_caller_wins (apiKey : String) (caller : String → Option String)
    (hnone : caller "X-N8N-API-KEY" = none) :
    buildHeaders apiKey caller "X-N8N-API-KEY" = some apiKey
    ∧ (∀ (c : String → Option String) (v : String), c "X-N8N-API-KEY" = some v →
        buildHeaders apiKey c "X-N8N-API-KEY" = some v)
    ∧ (∀ (c : String → Option String) (v : String), c "Content-Type" = some v →
        buildHeaders apiKey c "Content-Type" = some v)
    ∧ (∀ c : String → Option String, c "Content-Type" = none →
        buildHeaders apiKey c "Content-Type" = some "application/json") := by
  refine ⟨?_, ?_, ?_, ?_⟩
  · simp [buildHeaders, hnone]
  · intro c v hv
    simp [buildHeaders, hv]
  · intro c v hv
    simp [buildHeaders, hv]
  · intro c hc
    simp [buildHeaders, hc]

/-- Witness for claim C5 with no caller headers supplied. -/
theorem buildHeaders_caller_wins_witness :
    buildHeaders "secret-key" (fun _ => none) "X-N8N-API-KEY" = some "secret-key"
    ∧ (∀ (c : String → Option String) (v : String), c "X-N8N-API-KEY" = some v →
        buildHeaders "secret-key" c "X-N8N-API-KEY" = some v)
    ∧ (∀ (c : String → Option String) (v : String), c "Content-Type" = some v →
        buildHeaders "secret-key" c "Content-Type" = some v)
    ∧ (∀ c : String → Option String, c "Content-Type" = none →
        buildHeaders "secret-key" c "Content-Type" = some "application/json") :=
  buildHeaders_caller_wins "secret-key" (fun _ => none) rfl

/-- Counterexample to claim C6: the kind returned for status 500 is
`API_ERROR` — the same kind the classifier uses for any unlisted status
such as 599 — and no `SERVER_ERROR` kind exists in the closed taxonomy;
the fixed hint is the full string
`The n8n server encountered an error`. -/
theorem parseHttpError_5xx_kind_cex :
    (parseHttpError 500 ErrBody.empty).code = ErrorCodes.API_ERROR
    ∧ "SERVER_ERROR" ∉ ErrorCodes.all
    ∧ (parseHttpError 500 ErrBody.empty).code = (parseHttpError 599 ErrBody.empty).code
    ∧ (parseHttpError 500 ErrBody.empty).hint = some "The n8n server encountered an error" := by decide

/-- Claim C6 (amended): for every status in 500, 502, 503 and every body,
the classifier returns kind `API_ERROR` with the fixed message
`n8n server error` and the fixed hint
`The n8n server encountered an error`; the body alters none of these. -/
theorem parseHttpError_5xx_fixed (s : Nat) (hs : s ∈ [500, 502, 503]) (body : ErrBody) :
    parseHttpError s body =
      { code := ErrorCodes.API_ERROR
        message := "n8n server error"
        statusCode := some s
        hint := some "The n8n server encountered an error" } := by
  fin_cases hs <;> rfl

/-- Witness for claim C6 at status 502 with a non-JSON body. -/
theorem parseHttpError_5xx_fixed_witness :
    parseHttpError 502 (ErrBody.notJson "Bad Gateway") =
      { code := ErrorCodes.API_ERROR
        message := "n8n server error"
        statusCode := some 502
        hint := some "The n8n server encountered an error" } :=
  parseHttpError_5xx_fixed 502 (by decide) (ErrBody.notJson "Bad Gateway")

/-- Counterexample to claim C7: for a 404 with no body message, the
message is the generic status fallback `HTTP Error 404`, which is not a
generic not-found message; the not-found wording appears only in the
default hint. -/
theorem parseHttpError_404_fallback_cex :
    (parseHttpError 404 ErrBody.empty).message = "HTTP Error 404"
    ∧ containsSub "HTTP Error 404" "not found" = false
    ∧ containsSub "HTTP Error 404" "Not Found" = false
    ∧ (parseHttpError 404 ErrBody.empty).hint = some "The requested resource was not found" := by decide

/-- Claim C7 (amended): for status 404 the classifier returns kind
`NOT_FOUND`; the message is the body message field when the body parses as
JSON and carries a non-empty one, and otherwise the generic status
fallback `HTTP Error 404` (not a not-found phrase — that wording lives in
the default hint). -/
theorem parseHttpError_404_message (m : String) (hm : m ≠ "") (bodyHint : Option String)
    (body : ErrBody) :
    (parseHttpError 404 (ErrBody.jsonObj (some m) bodyHint)).code = ErrorCodes.NOT_FOUND
    ∧ (parseHttpError 404 (ErrBody.jsonObj (some m) bodyHint)).message = m
    ∧ (parseHttpError 404 body).code = ErrorCodes.NOT_FOUND
    ∧ ((parseBody body).message = none →
        (parseHttpError 404 body).message = "HTTP Error 404") := by
  refine ⟨rfl, ?_, rfl, ?_⟩
  · simp [parseHttpError, parseBody, jsOrS, hm]
  · intro hb
    simp [parseHttpError, jsOrS, hb]
    decide

/-- Witness for claim C7 at the spec scenario body message
`Workflow not found` and at the empty body. -/
theorem parseHttpError_404_message_witness :
    (parseHttpError 404 (ErrBody.jsonObj (some "Workflow not found") none)).code = ErrorCodes.NOT_FOUND
    ∧ (parseHttpError 404 (ErrBody.jsonObj (some "Workflow not found") none)).message = "Workflow not found"
    ∧ (parseHttpError 404 ErrBody.empty).code = ErrorCodes.NOT_FOUND
    ∧ ((parseBody ErrBody.empty).message = none →
        (parseHttpError 404 ErrBody.empty).message = "HTTP Error 404") :=
  parseHttpError_404_message "Workflow not found" (by decide) none ErrBody.empty

/-- Claim C8: classification is idempotent — a value that is already an
`N8nError` passes through `parseError` unchanged, so applying `parseError`
to the structured result of a previous `parseError` gives that result
back, for every input. -/
theorem parseError_idempotent (x : Thrown) (e : N8nApiError) :
    parseError (Thrown.n8nError e) = e
    ∧ parseError (Thrown.n8nError (parseError x)) = parseError x :=
  ⟨rfl, rfl⟩

/-- Claim C9: a successful response with an empty body makes `request`
resolve with the empty object in a single attempt, with no backoff sleeps
and no error — the JSON-parse branch is structurally unreachable for an
empty body. -/
theorem request_empty_body_ok {T : Type} (script : Nat → FetchOutcome T)
    (h0 : script 0 = FetchOutcome.respOk SuccessBody.empty) (maxRetries : Nat) :
    request script maxRetries = ⟨Except.ok ReqValue.emptyObj, 1, []⟩ := by
  show retryGo (fun k => requestAttempt (script k)) 1000 10000 0 maxRetries = _
  rw [retryGo_eq]
  simp [h0, requestAttempt]

/-- Witness for claim C9: a deletion-style call returning an empty body
with `maxRetries = 3`. -/
theorem request_empty_body_ok_witness :
    request (fun _ => (FetchOutcome.respOk SuccessBody.empty : FetchOutcome Unit)) 3 =
      ⟨Except.ok ReqValue.emptyObj, 1, []⟩ :=
  request_empty_body_ok _ rfl 3

/-- Claim C10: the constructor applies defaults with the `||` operator, so
the falsy option values `timeout = 0` and `maxRetries = 0` yield the
defaults 30000 and 3; consequently no constructed client ever has a zero
timeout or zero retries. -/
theorem client_falsy_option_defaults (config : N8nConfig) :
    (N8nApiClient.make config { timeout := some 0, maxRetries := some 0 }).timeout = 30000
    ∧ (N8nApiClient.make config { timeout := some 0, maxRetries := some 0 }).maxRetries = 3
    ∧ (∀ options : N8nApiClientOptions,
        (N8nApiClient.make config options).timeout ≠ 0
        ∧ (N8nApiClient.make config options).maxRetries ≠ 0) := by
  refine ⟨rfl, rfl, ?_⟩
  intro options
  constructor
  · cases ht : options.timeout with
    | none => simp [N8nApiClient.make, jsOrNat, ht]
    | some n =>
      simp only [N8nApiClient.make, jsOrNat, ht]
      split
      · decide
      · assumption
  · cases hr : options.maxRetries with
    | none => simp [N8nApiClient.make, jsOrNat, hr]
    | some n =>
      simp only [N8nApiClient.make, jsOrNat, hr]
      split
      · decide
      · assumption
